import Mathlib

/-!
Verification development for the python-rabbitx streaming client.

The Python sources under `rabbitx/ws/` are shallowly embedded below:
Python dicts become association lists with dict-style get/set/pop,
`Decimal`/`float` values become exact rationals, stateful methods become
explicit state-passing functions, and a raised Python exception becomes an
`err` component carried in the result (the state component of a result is
the state at the moment the exception escapes, matching Python's in-place
mutation).
-/

set_option autoImplicit false

namespace RabbitX

/-! ## Dict primitives

Python `d[k]` / `d[k] = v` / `del d[k]` / `k in d` over association lists.
Insertion order of a Python dict is irrelevant to every claim (lookups are
by key and the order books query only the minimum/maximum key), so `dictSet`
conses the fresh binding after removing any stale one. -/

variable {α : Type} {β : Type}

/-- Dict lookup: `d.get(k, None)`. -/
def dictGet [DecidableEq α] : List (α × β) → α → Option β
  | [], _ => none
  | (k, v) :: rest, a => if k = a then some v else dictGet rest a

/-- Dict deletion: `del d[k]` (no-op when the key is absent, as `pop`). -/
def dictPop [DecidableEq α] : List (α × β) → α → List (α × β)
  | [], _ => []
  | (k, v) :: rest, a => if k = a then dictPop rest a else (k, v) :: dictPop rest a

/-- Dict assignment: `d[k] = v`. -/
def dictSet [DecidableEq α] (m : List (α × β)) (a : α) (v : β) : List (α × β) :=
  (a, v) :: dictPop m a

theorem dictGet_set_self [DecidableEq α] (m : List (α × β)) (a : α) (v : β) :
    dictGet (dictSet m a v) a = some v := by
  simp [dictSet, dictGet]

theorem dictGet_pop_self [DecidableEq α] (m : List (α × β)) (a : α) :
    dictGet (dictPop m a) a = none := by
  induction m with
  | nil => rfl
  | cons p rest ih =>
    obtain ⟨k, v⟩ := p
    by_cases h : k = a <;> simp [dictPop, dictGet, h, ih]

theorem dictGet_eq_none_iff [DecidableEq α] (m : List (α × β)) (a : α) :
    dictGet m a = none ↔ a ∉ m.map Prod.fst := by
  induction m with
  | nil => simp [dictGet]
  | cons p rest ih =>
    obtain ⟨k, v⟩ := p
    by_cases h : k = a
    · simp [dictGet, h]
    · rw [show dictGet ((k, v) :: rest) a = dictGet rest a from by simp [dictGet, h], ih]
      constructor
      · intro hn hm
        rcases List.mem_cons.mp hm with hk | hm
        · exact h hk.symm
        · exact hn hm
      · intro hn hm
        exact hn (List.mem_cons_of_mem _ hm)

/-! ## Order book reducer (`rabbitx/ws/orderbook.py`)

`BTrees.OOBTree` keyed by `Decimal` is embedded as an association list keyed
by `ℚ`; `minKey`/`maxKey` become the minimum/maximum over the key list. -/

/-- One side of the book: price → resting size. -/
abbrev BookSide := List (ℚ × ℚ)

/-- Keys of a side, i.e. the prices present in the map. -/
def keyList (m : BookSide) : List ℚ := m.map Prod.fst

/-- Minimum of a key list (`BTree.minKey` on a nonempty tree). -/
def minKey? : List ℚ → Option ℚ
  | [] => none
  | x :: xs => some (xs.foldl min x)

/-- Maximum of a key list (`BTree.maxKey` on a nonempty tree). -/
def maxKey? : List ℚ → Option ℚ
  | [] => none
  | x :: xs => some (xs.foldl max x)

theorem foldl_min_mem (xs : List ℚ) (x : ℚ) :
    xs.foldl min x = x ∨ xs.foldl min x ∈ xs := by
  induction xs generalizing x with
  | nil => exact Or.inl rfl
  | cons y ys ih =>
    rcases ih (min x y) with h | h
    · rcases min_choice x y with hc | hc
      · exact Or.inl (by rw [List.foldl_cons, h, hc])
      · exact Or.inr (by rw [List.foldl_cons, h, hc]; exact List.mem_cons_self y ys)
    · exact Or.inr (List.mem_cons_of_mem y h)

theorem foldl_max_mem (xs : List ℚ) (x : ℚ) :
    xs.foldl max x = x ∨ xs.foldl max x ∈ xs := by
  induction xs generalizing x with
  | nil => exact Or.inl rfl
  | cons y ys ih =>
    rcases ih (max x y) with h | h
    · rcases max_choice x y with hc | hc
      · exact Or.inl (by rw [List.foldl_cons, h, hc])
      · exact Or.inr (by rw [List.foldl_cons, h, hc]; exact List.mem_cons_self y ys)
    · exact Or.inr (List.mem_cons_of_mem y h)

theorem minKey?_mem {l : List ℚ} {a : ℚ} (h : minKey? l = some a) : a ∈ l := by
  cases l with
  | nil => cases h
  | cons x xs =>
    have hx : xs.foldl min x = a := by simpa [minKey?] using h
    rcases foldl_min_mem xs x with h' | h'
    · rw [← hx, h']; exact List.mem_cons_self x xs
    · rw [← hx]; exact List.mem_cons_of_mem x h'

theorem maxKey?_mem {l : List ℚ} {a : ℚ} (h : maxKey? l = some a) : a ∈ l := by
  cases l with
  | nil => cases h
  | cons x xs =>
    have hx : xs.foldl max x = a := by simpa [maxKey?] using h
    rcases foldl_max_mem xs x with h' | h'
    · rw [← hx, h']; exact List.mem_cons_self x xs
    · rw [← hx]; exact List.mem_cons_of_mem x h'

/-- One `on_update(market_id, side, price, amount)` callback invocation. -/
structure BookEv where
  market : String
  side : String
  price : ℚ
  amount : ℚ
  deriving DecidableEq

/-- `Orderbook.__init__` state: `{'asks': BTree(), 'bids': BTree()}` plus the
market id. -/
structure Orderbook where
  asks : BookSide
  bids : BookSide
  market_id : String
  deriving DecidableEq

/-- Fresh book as built by `Orderbook.__init__(market_id)`. -/
def Orderbook.init (market_id : String) : Orderbook :=
  { asks := [], bids := [], market_id := market_id }

/-- Per-side loop body of `Orderbook.consume`: for each `(price, amount)`
pair, `update({price: amount})` then `pop(price)` when the amount is zero,
emitting one `on_update` event per pair. -/
def consumeSide (mk : String) (sideName : String) :
    BookSide → List (ℚ × ℚ) → BookSide × List BookEv
  | side, [] => (side, [])
  | side, (p, a) :: rest =>
    let side1 := dictSet side p a
    let side2 := if a = 0 then dictPop side1 p else side1
    let r := consumeSide mk sideName side2 rest
    (r.1, ⟨mk, sideName, p, a⟩ :: r.2)

/-- Payload of `Orderbook.consume`: optional `asks` / `bids` lists. -/
structure BookData where
  asks : Option (List (ℚ × ℚ)) := none
  bids : Option (List (ℚ × ℚ)) := none

/-- `Orderbook.consume(data)`: apply the `asks` levels (side name `short`),
then the `bids` levels (side name `long`). -/
def Orderbook.consume (ob : Orderbook) (d : BookData) : Orderbook × List BookEv :=
  let ra :=
    match d.asks with
    | some l =>
      let r := consumeSide ob.market_id "short" ob.asks l
      ({ ob with asks := r.1 }, r.2)
    | none => (ob, [])
  match d.bids with
  | some l =>
    let r := consumeSide ra.1.market_id "long" ra.1.bids l
    ({ ra.1 with bids := r.1 }, ra.2 ++ r.2)
  | none => ra

/-- `Orderbook.best_ask`: `minKey()` when the ask map is nonempty else `None`. -/
def Orderbook.best_ask (ob : Orderbook) : Option ℚ :=
  if 0 < ob.asks.length then minKey? (keyList ob.asks) else none

/-- `Orderbook.best_bid`: `maxKey()` when the bid map is nonempty else `None`. -/
def Orderbook.best_bid (ob : Orderbook) : Option ℚ :=
  if 0 < ob.bids.length then maxKey? (keyList ob.bids) else none

theorem consumeSide_state_append (mk nm : String) (s : BookSide)
    (l1 l2 : List (ℚ × ℚ)) :
    (consumeSide mk nm s (l1 ++ l2)).1 =
      (consumeSide mk nm (consumeSide mk nm s l1).1 l2).1 := by
  induction l1 generalizing s with
  | nil => simp [consumeSide]
  | cons p rest ih =>
    obtain ⟨pr, am⟩ := p
    simp only [List.cons_append, consumeSide]
    exact ih _

theorem best_ask_ne_of_absent (ob : Orderbook) (P : ℚ)
    (h : dictGet ob.asks P = none) : ob.best_ask ≠ some P := by
  intro hc
  unfold Orderbook.best_ask at hc
  split at hc
  · exact ((dictGet_eq_none_iff _ _).1 h) (minKey?_mem hc)
  · cases hc

theorem best_bid_ne_of_absent (ob : Orderbook) (P : ℚ)
    (h : dictGet ob.bids P = none) : ob.best_bid ≠ some P := by
  intro hc
  unfold Orderbook.best_bid at hc
  split at hc
  · exact ((dictGet_eq_none_iff _ _).1 h) (maxKey?_mem hc)
  · cases hc

theorem consumeSide_zero_last (mk nm : String) (s : BookSide)
    (l : List (ℚ × ℚ)) (P : ℚ) :
    dictGet (consumeSide mk nm s (l ++ [(P, 0)])).1 P = none := by
  rw [consumeSide_state_append]
  simp [consumeSide, dictGet_pop_self]

/-- Claim C4: applying a `(price P, size 0)` pair on a side removes price
`P` from that side's map (never stored as size zero), and the subsequent
best-bid/best-ask query for that side never returns `P`. -/
theorem C4_zero_size_removes_level (ob : Orderbook) (l : List (ℚ × ℚ)) (P : ℚ) :
    (dictGet (ob.consume { asks := some (l ++ [(P, 0)]) }).1.asks P = none ∧
      (ob.consume { asks := some (l ++ [(P, 0)]) }).1.best_ask ≠ some P) ∧
    (dictGet (ob.consume { bids := some (l ++ [(P, 0)]) }).1.bids P = none ∧
      (ob.consume { bids := some (l ++ [(P, 0)]) }).1.best_bid ≠ some P) := by
  have ha : (ob.consume { asks := some (l ++ [(P, 0)]) }).1.asks =
      (consumeSide ob.market_id "short" ob.asks (l ++ [(P, 0)])).1 := rfl
  have hb : (ob.consume { bids := some (l ++ [(P, 0)]) }).1.bids =
      (consumeSide ob.market_id "long" ob.bids (l ++ [(P, 0)])).1 := rfl
  refine ⟨⟨?_, ?_⟩, ⟨?_, ?_⟩⟩
  · rw [ha]; exact consumeSide_zero_last _ _ _ _ _
  · exact best_ask_ne_of_absent _ _ (by rw [ha]; exact consumeSide_zero_last _ _ _ _ _)
  · rw [hb]; exact consumeSide_zero_last _ _ _ _ _
  · exact best_bid_ne_of_absent _ _ (by rw [hb]; exact consumeSide_zero_last _ _ _ _ _)

/-- Claim C9: `best_bid()` (resp. `best_ask()`) returns no value — not an
exception and not zero — whenever the bid (resp. ask) map is empty, both on a
freshly constructed book and after any consumes that empty the side. -/
theorem C9_empty_book_best_none (ob : Orderbook) (mid : String) :
    (ob.bids = [] → ob.best_bid = none) ∧
    (ob.asks = [] → ob.best_ask = none) ∧
    (Orderbook.init mid).best_bid = none ∧
    (Orderbook.init mid).best_ask = none := by
  refine ⟨fun h => ?_, fun h => ?_, rfl, rfl⟩
  · simp [Orderbook.best_bid, h]
  · simp [Orderbook.best_ask, h]

/-- Witness for C9: a book whose only bid level was zeroed out has an empty
bid map, and `best_bid` on it (and on a fresh book) is `none`. -/
theorem C9_witness :
    ((Orderbook.init "BTC-USD").consume { bids := some [(100, 5)] }).1.consume
        { bids := some [(100, 0)] } |>.1.best_bid = none := by
  exact (C9_empty_book_best_none
    (((Orderbook.init "BTC-USD").consume { bids := some [(100, 5)] }).1.consume
      { bids := some [(100, 0)] }).1 "BTC-USD").1 (by decide)

/-! ## Python exceptions -/

/-- Exceptions that the embedded code can raise. -/
inductive PyError where
  | attributeError
  | keyError
  | handlerError
  | jsonDecodeError
  deriving DecidableEq

/-! ## Open orders reducer (`rabbitx/ws/opened_orders.py`) -/

/-- An order object as inspected by `OpenedOrders.consume`: the three keys
the code reads are optional (absent key ↦ `none`), `extra` stands for the
remaining fields so that distinct order dicts stay distinguishable. -/
structure Order where
  market_id : Option String
  id : Option String
  status : Option String
  extra : Nat
  deriving DecidableEq

/-- `['closed', 'rejected', 'canceled', 'canceling']`. -/
def terminalStatuses : List String := ["closed", "rejected", "canceled", "canceling"]

/-- Nested map `market_id → order_id → order` (`self.orders`). -/
abbrev OrdersMap := List (String × List (String × Order))

/-- The loop body of `OpenedOrders.consume` over `data['orders']`.

Returns the final map, the `on_update(order)` invocations in order, and the
exception (if any) that escaped — with the map as already mutated at that
point, matching Python's in-place updates. -/
def consumeOrders : OrdersMap → List Order → OrdersMap × List Order × Option PyError
  | os, [] => (os, [], none)
  | os, o :: rest =>
    match o.market_id, o.id with
    | some mid, some oid =>
      let inner :=
        match dictGet os mid with
        | none => ([] : List (String × Order))
        | some m => m
      let inner1 :=
        match dictGet inner oid with
        | none => dictSet inner oid o
        | some _ => inner
      match o.status with
      | none =>
        (dictSet os mid inner1, [], some PyError.keyError)
      | some st =>
        let inner2 := if st ∈ terminalStatuses then dictPop inner1 oid else dictSet inner1 oid o
        let r := consumeOrders (dictSet os mid inner2) rest
        (r.1, o :: r.2.1, r.2.2)
    | _, _ => consumeOrders os rest

/-- Payload of `OpenedOrders.consume`: optional `orders` list. -/
structure OrdersData where
  orders : Option (List Order) := none

/-- `OpenedOrders` state: the nested `self.orders` map. -/
structure OpenedOrders where
  orders : OrdersMap
  deriving DecidableEq

/-- Fresh state as built by `OpenedOrders.__init__`. -/
def OpenedOrders.init : OpenedOrders := { orders := [] }

/-- `OpenedOrders.consume(data)`: early return when the `orders` key is
absent, otherwise run the per-order loop. -/
def OpenedOrders.consume (s : OpenedOrders) (d : OrdersData) :
    OpenedOrders × List Order × Option PyError :=
  match d.orders with
  | none => (s, [], none)
  | some l =>
    let r := consumeOrders s.orders l
    (⟨r.1⟩, r.2.1, r.2.2)

/-- `OpenedOrders.get_order(market_id, order_id)`:
`self.orders.get(market_id, \x7b\x7d).get(order_id, None)`. -/
def OpenedOrders.get_order (s : OpenedOrders) (mid oid : String) : Option Order :=
  match dictGet s.orders mid with
  | none => none
  | some inner => dictGet inner oid

/-- Claim C5: consuming an order with a terminal status deletes its
`(market_id, id)` entry, consuming one with a non-terminal status upserts it
and fires the update callback with the order; an order consumed as `open`
and then re-consumed as `closed` is absent afterwards. -/
theorem C5_terminal_orders_removed (s : OpenedOrders) (o : Order)
    (mid oid st : String) (hm : o.market_id = some mid) (hi : o.id = some oid)
    (hs : o.status = some st) :
    (st ∈ terminalStatuses →
      (s.consume { orders := some [o] }).1.get_order mid oid = none) ∧
    (st ∉ terminalStatuses →
      (s.consume { orders := some [o] }).1.get_order mid oid = some o ∧
      (s.consume { orders := some [o] }).2.1 = [o]) ∧
    (∀ o2 : Order, o2.market_id = some mid → o2.id = some oid →
      o2.status = some "closed" →
      ((s.consume { orders := some [o] }).1.consume
          { orders := some [o2] }).1.get_order mid oid = none) := by
  have key : ∀ (t : OpenedOrders) (o3 : Order) (st3 : String),
      o3.market_id = some mid → o3.id = some oid → o3.status = some st3 →
      st3 ∈ terminalStatuses →
      (t.consume { orders := some [o3] }).1.get_order mid oid = none := by
    intro t o3 st3 hm3 hi3 hs3 hterm
    simp only [OpenedOrders.consume, consumeOrders, hm3, hi3, hs3, if_pos hterm,
      OpenedOrders.get_order, dictGet_set_self, dictGet_pop_self]
  refine ⟨fun hterm => key s o st hm hi hs hterm, fun hnt => ?_, ?_⟩
  · constructor
    · simp only [OpenedOrders.consume, consumeOrders, hm, hi, hs, if_neg hnt,
        OpenedOrders.get_order, dictGet_set_self]
    · simp only [OpenedOrders.consume, consumeOrders, hm, hi, hs, if_neg hnt]
  · intro o2 hm2 hi2 hs2
    exact key _ o2 "closed" hm2 hi2 hs2 (by decide)

/-- Witness for C5 at concrete inputs: an order consumed with status `open`
is retained (and reported through the callback), and re-consuming it with
status `closed` removes it. -/
theorem C5_witness :
    (OpenedOrders.init.consume
        { orders := some [⟨some "BTC-USD", some "ord-1", some "open", 0⟩] }).1.get_order
        "BTC-USD" "ord-1" = some ⟨some "BTC-USD", some "ord-1", some "open", 0⟩ ∧
    ((OpenedOrders.init.consume
        { orders := some [⟨some "BTC-USD", some "ord-1", some "open", 0⟩] }).1.consume
        { orders := some [⟨some "BTC-USD", some "ord-1", some "closed", 1⟩] }).1.get_order
        "BTC-USD" "ord-1" = none := by
  have h := C5_terminal_orders_removed OpenedOrders.init
    ⟨some "BTC-USD", some "ord-1", some "open", 0⟩ "BTC-USD" "ord-1" "open"
    rfl rfl rfl
  exact ⟨(h.2.1 (by decide)).1,
    h.2.2 ⟨some "BTC-USD", some "ord-1", some "closed", 1⟩ rfl rfl rfl⟩

/-- Claim C10: an order carrying `market_id` and `id` but no `status` makes
`consume` raise a `KeyError` after it has already inserted the (previously
absent) order into the nested map; the orders after it in the same payload
are not processed, and no update callback fires. -/
theorem C10_missing_status_raises (s : OpenedOrders) (mid oid : String)
    (n : Nat) (post : List Order)
    (habs : s.get_order mid oid = none) :
    s.consume { orders := some (Order.mk (some mid) (some oid) none n :: post) } =
      s.consume { orders := some [Order.mk (some mid) (some oid) none n] } ∧
    (s.consume { orders := some [Order.mk (some mid) (some oid) none n] }).2.2 =
      some PyError.keyError ∧
    (s.consume { orders := some [Order.mk (some mid) (some oid) none n] }).1.get_order
      mid oid = some (Order.mk (some mid) (some oid) none n) ∧
    (s.consume { orders := some [Order.mk (some mid) (some oid) none n] }).2.1 = [] := by
  refine ⟨rfl, rfl, ?_, rfl⟩
  unfold OpenedOrders.get_order at habs
  unfold OpenedOrders.consume consumeOrders
  cases hos : dictGet s.orders mid with
  | none =>
    simp only [hos, OpenedOrders.get_order, dictGet_set_self, dictGet]
    simp [dictGet_set_self]
  | some inner =>
    rw [hos] at habs
    have habs2 : dictGet inner oid = none := habs
    simp only [hos, habs2, OpenedOrders.get_order, dictGet_set_self]

/-- Witness for C10: on an empty state, a status-less order raises the
`KeyError`, yet the order is left inserted in the map and the rest of the
payload is ignored. -/
theorem C10_witness :
    OpenedOrders.init.consume
        { orders := some [Order.mk (some "BTC-USD") (some "ord-1") none 0,
            Order.mk (some "BTC-USD") (some "ord-2") (some "open") 1] } =
      OpenedOrders.init.consume
        { orders := some [Order.mk (some "BTC-USD") (some "ord-1") none 0] } ∧
    (OpenedOrders.init.consume
        { orders := some [Order.mk (some "BTC-USD") (some "ord-1") none 0] }).2.2 =
      some PyError.keyError ∧
    (OpenedOrders.init.consume
        { orders := some [Order.mk (some "BTC-USD") (some "ord-1") none 0] }).1.get_order
      "BTC-USD" "ord-1" = some (Order.mk (some "BTC-USD") (some "ord-1") none 0) := by
  have h := C10_missing_status_raises OpenedOrders.init "BTC-USD" "ord-1" 0
    [Order.mk (some "BTC-USD") (some "ord-2") (some "open") 1] (by decide)
  exact ⟨h.1, h.2.1, h.2.2.1⟩

/-! ## Positions reducer (`rabbitx/ws/positions.py`) -/

/-- A position object as inspected by `Positions.consume`; `size` is the
exact numeric value of the `size` field (`float(position["size"])` compared
against zero, embedded over `ℚ`), `none` when the key is absent. -/
structure Position where
  market_id : Option String
  size : Option ℚ
  extra : Nat
  deriving DecidableEq

/-- The loop body of `Positions.consume` over `data['positions']`: upsert
under `market_id`, then delete when the numeric size is zero, then fire
`on_update(market_id, position)`. A missing `size` raises after the upsert. -/
def consumePositions : List (String × Position) → List Position →
    List (String × Position) × List (String × Position) × Option PyError
  | ps, [] => (ps, [], none)
  | ps, p :: rest =>
    match p.market_id with
    | none => consumePositions ps rest
    | some mid =>
      let ps1 := dictSet ps mid p
      match p.size with
      | none => (ps1, [], some PyError.keyError)
      | some sz =>
        let ps2 := if sz = 0 then dictPop ps1 mid else ps1
        let r := consumePositions ps2 rest
        (r.1, (mid, p) :: r.2.1, r.2.2)

/-- Payload of `Positions.consume`: optional `positions` list. -/
structure PositionsData where
  positions : Option (List Position) := none

/-- `Positions` state: the `self.positions` map. -/
structure Positions where
  positions : List (String × Position)
  deriving DecidableEq

/-- Fresh state as built by `Positions.__init__`. -/
def Positions.init : Positions := { positions := [] }

/-- `Positions.consume(data)`: early return when the `positions` key is
absent, otherwise run the per-position loop. -/
def Positions.consume (s : Positions) (d : PositionsData) :
    Positions × List (String × Position) × Option PyError :=
  match d.positions with
  | none => (s, [], none)
  | some l =>
    let r := consumePositions s.positions l
    (⟨r.1⟩, r.2.1, r.2.2)

/-- `Positions.get_position(market_id)`: `self.positions.get(market_id, None)`. -/
def Positions.get_position (s : Positions) (mid : String) : Option Position :=
  dictGet s.positions mid

/-- Claim C6: consuming a position whose numeric size is zero deletes the
`market_id` entry, consuming one with nonzero size upserts it and fires the
update callback with `(market_id, position)`; a position consumed with size
`0.01` then re-consumed with size `0` is absent afterwards. -/
theorem C6_zero_positions_removed (s : Positions) (p : Position)
    (mid : String) (sz : ℚ) (hm : p.market_id = some mid) (hsz : p.size = some sz) :
    (sz = 0 → (s.consume { positions := some [p] }).1.get_position mid = none) ∧
    (sz ≠ 0 →
      (s.consume { positions := some [p] }).1.get_position mid = some p ∧
      (s.consume { positions := some [p] }).2.1 = [(mid, p)]) ∧
    (∀ p2 : Position, p2.market_id = some mid → p2.size = some 0 →
      ((s.consume { positions := some [p] }).1.consume
          { positions := some [p2] }).1.get_position mid = none) := by
  have key : ∀ (t : Positions) (p3 : Position), p3.market_id = some mid →
      p3.size = some 0 →
      (t.consume { positions := some [p3] }).1.get_position mid = none := by
    intro t p3 hm3 hs3
    simp only [Positions.consume, consumePositions, hm3, hs3, Positions.get_position]
    simp [dictGet_pop_self]
  refine ⟨fun h0 => key s p hm (h0 ▸ hsz), fun hnz => ?_, fun p2 hm2 hs2 => key _ p2 hm2 hs2⟩
  constructor
  · simp only [Positions.consume, consumePositions, hm, hsz, if_neg hnz,
      Positions.get_position, dictGet_set_self]
  · simp only [Positions.consume, consumePositions, hm, hsz, if_neg hnz]

/-- Witness for C6 at the spec's concrete inputs: size `0.01` is retained
(and reported through the callback), re-consuming with size `0` removes it. -/
theorem C6_witness :
    (Positions.init.consume
        { positions := some [⟨some "BTC-USD", some (1 / 100), 0⟩] }).1.get_position
        "BTC-USD" = some ⟨some "BTC-USD", some (1 / 100), 0⟩ ∧
    ((Positions.init.consume
        { positions := some [⟨some "BTC-USD", some (1 / 100), 0⟩] }).1.consume
        { positions := some [⟨some "BTC-USD", some 0, 1⟩] }).1.get_position
        "BTC-USD" = none := by
  have h := C6_zero_positions_removed Positions.init
    ⟨some "BTC-USD", some (1 / 100), 0⟩ "BTC-USD" (1 / 100) rfl rfl
  exact ⟨(h.2.1 (by norm_num)).1, h.2.2 ⟨some "BTC-USD", some 0, 1⟩ rfl rfl⟩

/-! ## WebSocket session (`rabbitx/ws/ws.py` sync, `rabbitx/ws/async_ws.py`)

The session state is embedded field by field (`self.conn` kept only as
presence, since the claims read it solely through `self.conn.send` raising
`AttributeError` on `None`). Continuations stored in `self.promises` are the
three closures the code actually creates; user callbacks passed to
`request` are `Cont.external` tags. Side effects of a step are collected in
an `Eff` record: frames sent, continuations invoked, dispatch work
(queue puts in the sync client, inline `_handle_*` calls in the async one),
and the escaping exception if any. -/

/-- Opaque channel payload (the JSON subtree handed to handlers). -/
abbrev Data := Nat

/-- A continuation stored in `self.promises`. -/
inductive Cont where
  | onAuthorized
  | onSubscribe (channel : String)
  | external (tag : Nat)
  deriving DecidableEq

/-- The `message` dict passed to `request`, before the id is stamped. -/
inductive ReqPayload where
  | connectReq
  | subscribeReq (channel : String)
  | other (tag : Nat)
  deriving DecidableEq

/-- A frame written to the connection: a stamped request, or the literal
empty-object heartbeat echo. -/
inductive Sent where
  | frame (payload : ReqPayload) (id : Nat)
  | heartbeat
  deriving DecidableEq

/-- Dispatch work: `("message", (channel, data))` / `("subscribe",
(channel, data))` queue items in the sync client, the corresponding inline
`_handle_message` / `_handle_subscribe` calls in the async client. -/
inductive Dispatch where
  | message (channel : String) (data : Data)
  | subscribeAck (channel : String) (data : Data)
  deriving DecidableEq

/-- Observable effects of one embedded step. -/
structure Eff where
  sent : List Sent := []
  invoked : List Cont := []
  dispatched : List Dispatch := []
  err : Option PyError := none
  deriving DecidableEq

/-- The all-empty effect record. -/
def Eff.empty : Eff := {}

/-- Sequential composition of effects (second argument ran after the first,
which is only well-formed when the first did not raise). -/
def Eff.append (a b : Eff) : Eff :=
  { sent := a.sent ++ b.sent
    invoked := a.invoked ++ b.invoked
    dispatched := a.dispatched ++ b.dispatched
    err := match a.err with | some e => some e | none => b.err }

/-- A decoded envelope. Each field is one key path the two clients read:
`id`, `push.channel` and `push.pub.data` (sync routing), top-level `channel`
/ `data` / `subscribe` (async routing), `subscribe.data` (read inside the
subscribe continuation). -/
structure Msg where
  id : Option Nat := none
  pushChannel : Option String := none
  pushData : Option Data := none
  channel : Option String := none
  data : Option Data := none
  sub : Option Data := none
  subData : Option Data := none
  deriving DecidableEq

/-- Mutable session fields shared by `WS.__init__` / `AsyncWS.__init__`
(`token` kept as its truthiness, which is all `_connect` reads). -/
structure WSState where
  conn : Bool
  connected : Bool
  authorized : Bool
  token : Bool
  message_id : Nat
  promises : List (Nat × Cont)
  channels : List String
  subscribed : List String
  handlers : List (String × List Nat)
  deriving DecidableEq

/-- `WS.send(message)`: `self.conn.send(message)`, which raises
`AttributeError` when `self.conn` is `None`. -/
def WSState.send (s : WSState) (m : Sent) : WSState × Eff :=
  if s.conn then (s, { sent := [m] })
  else (s, { err := some PyError.attributeError })

/-- `WS.request(message, callback)`: bump `self.message_id`, record the
continuation in `self.promises`, stamp the message with the id, send it. -/
def WSState.request (s : WSState) (p : ReqPayload) (cb : Cont) : WSState × Eff :=
  let nid := s.message_id + 1
  let s1 := { s with message_id := nid, promises := dictSet s.promises nid cb }
  s1.send (Sent.frame p nid)

/-- `WS.subscribe(channel)`: defer (append to `self.channels`) only when not
connected AND the channel is not already desired; otherwise fall through to
a correlated subscribe request. -/
def WSState.subscribe (s : WSState) (c : String) : WSState × Eff :=
  if ¬s.connected ∧ c ∉ s.channels then
    ({ s with channels := s.channels ++ [c] }, Eff.empty)
  else
    s.request (ReqPayload.subscribeReq c) (Cont.onSubscribe c)

/-- `WS.register_handler(channel, handler)` (sync version): append the
handler, then append the channel to `self.channels` when not connected and
not already present. -/
def WSState.register_handler (s : WSState) (c : String) (h : Nat) : WSState :=
  let hs :=
    match dictGet s.handlers c with
    | none => ([] : List Nat)
    | some l => l
  let s1 := { s with handlers := dictSet s.handlers c (hs ++ [h]) }
  if ¬s1.connected ∧ c ∉ s1.channels then
    { s1 with channels := s1.channels ++ [c] }
  else s1

/-- The `for channel in self.channels: self.subscribe(channel)` loop inside
`on_authorized`; a raised exception aborts the loop. -/
def subscribeAll : WSState → List String → WSState × Eff
  | s, [] => (s, Eff.empty)
  | s, c :: rest =>
    let r := s.subscribe c
    match r.2.err with
    | some _ => r
    | none =>
      let r2 := subscribeAll r.1 rest
      (r2.1, Eff.append r.2 r2.2)

/-- Execution of a stored continuation on the response envelope:
`on_authorized` marks authorized and subscribes every desired channel;
`on_subscribe channel` marks the channel subscribed and emits the dispatch
work carrying `msg["subscribe"]["data"]` (a missing key raises); a
caller-provided callback is opaque. -/
def runCont (s : WSState) (cb : Cont) (m : Msg) : WSState × Eff :=
  match cb with
  | Cont.onAuthorized =>
    let s1 := { s with authorized := true }
    subscribeAll s1 s1.channels
  | Cont.onSubscribe c =>
    let s1 := { s with subscribed := if c ∈ s.subscribed then s.subscribed else s.subscribed ++ [c] }
    match m.subData with
    | some d => (s1, { dispatched := [Dispatch.subscribeAck c d] })
    | none => (s1, { err := some PyError.keyError })
  | Cont.external _ => (s, Eff.empty)

/-- `WS._connect()` after a successful transport connect: set `self.conn`,
set `self.connected`, and when a token is present issue the authorize
request (`_authorize`). -/
def WSState.ws_connect (s : WSState) : WSState × Eff :=
  let s1 := { s with conn := true, connected := true }
  if s1.token then s1.request ReqPayload.connectReq Cont.onAuthorized
  else (s1, Eff.empty)

/-- The `elif`/`else` tail of the sync `WS._process_message`: a
`push.channel` + `push.pub.data` envelope is queued for the handler worker,
anything else is logged as unknown and dropped. -/
def routePush (s : WSState) (m : Msg) : WSState × Eff :=
  match m.pushChannel, m.pushData with
  | some c, some d => (s, { dispatched := [Dispatch.message c d] })
  | _, _ => (s, Eff.empty)

/-- Correlation branch of the sync `WS._process_message`: a recognized id
invokes the stored continuation (entry still present during the call, per
the sync code) and then deletes the entry — unless the continuation raised,
in which case the `del` is never reached. -/
def resolveOrRoute (s : WSState) (m : Msg) : WSState × Eff :=
  match m.id with
  | some i =>
    (match dictGet s.promises i with
    | some cb =>
      let r := runCont s cb m
      (match r.2.err with
      | some _ => (r.1, { r.2 with invoked := cb :: r.2.invoked })
      | none =>
        ({ r.1 with promises := dictPop r.1.promises i },
          { r.2 with invoked := cb :: r.2.invoked }))
    | none => routePush s m)
  | none => routePush s m

/-- `WS._process_message(message)` on the result of `json.loads`: a decode
failure is logged and dropped (early `return`), a decoded envelope is
resolved or routed. -/
def process_message (s : WSState) (r : Except Unit Msg) : WSState × Eff :=
  match r with
  | Except.error _ => (s, Eff.empty)
  | Except.ok m => resolveOrRoute s m

/-- One transport message as seen by `_run`: either the literal heartbeat
text or its newline-split non-blank parts, each tagged with its
`json.loads` outcome. -/
inductive TransportMsg where
  | heartbeat
  | parts (ps : List (Except Unit Msg))

/-- The per-part loop of the sync `WS._run` body: parts are processed in
order; an exception escaping `_process_message` aborts the message. -/
def processParts : WSState → List (Except Unit Msg) → WSState × Eff
  | s, [] => (s, Eff.empty)
  | s, p :: ps =>
    let r := process_message s p
    match r.2.err with
    | some _ => r
    | none =>
      let r2 := processParts r.1 ps
      (r2.1, Eff.append r.2 r2.2)

/-- One iteration of the sync `WS._run` read loop: the `"{}"` heartbeat is
echoed back immediately and nothing else happens; any other message is
split and processed part by part. -/
def runStep (s : WSState) (t : TransportMsg) : WSState × Eff :=
  match t with
  | TransportMsg.heartbeat => s.send Sent.heartbeat
  | TransportMsg.parts ps => processParts s ps

/-- The sync `WS._run` read loop over a list of received transport
messages; an uncaught exception ends the loop (re-raised by `_run`). -/
def runFrames : WSState → List TransportMsg → WSState × Eff
  | s, [] => (s, Eff.empty)
  | s, t :: ts =>
    let r := runStep s t
    match r.2.err with
    | some _ => r
    | none =>
      let r2 := runFrames r.1 ts
      (r2.1, Eff.append r.2 r2.2)

/-- Routing tail of the async `AsyncWS._process_message`: top-level
`channel` with `data` dispatches inline as a push, `channel` with
`subscribe` dispatches inline as an acknowledgement, otherwise the frame is
dropped. -/
def asyncRoute (s : WSState) (m : Msg) : WSState × Eff :=
  match m.channel with
  | some c =>
    (match m.data with
    | some d => (s, { dispatched := [Dispatch.message c d] })
    | none =>
      match m.sub with
      | some d => (s, { dispatched := [Dispatch.subscribeAck c d] })
      | none => (s, Eff.empty))
  | none => (s, Eff.empty)

/-- Correlation branch of the async `AsyncWS._process_message`: the entry is
deleted before the continuation runs. -/
def asyncResolveOrRoute (s : WSState) (m : Msg) : WSState × Eff :=
  match m.id with
  | some i =>
    (match dictGet s.promises i with
    | some cb =>
      let s1 := { s with promises := dictPop s.promises i }
      let r := runCont s1 cb m
      (r.1, { r.2 with invoked := cb :: r.2.invoked })
    | none => asyncRoute s m)
  | none => asyncRoute s m

/-- `AsyncWS._process_message(message)`: `json.loads` is NOT guarded here —
a decode failure propagates as an exception. -/
def async_process_message (s : WSState) (r : Except Unit Msg) : WSState × Eff :=
  match r with
  | Except.error _ => (s, { err := some PyError.jsonDecodeError })
  | Except.ok m => asyncResolveOrRoute s m

/-- Per-part loop of the async `AsyncWS._run` body. -/
def asyncProcessParts : WSState → List (Except Unit Msg) → WSState × Eff
  | s, [] => (s, Eff.empty)
  | s, p :: ps =>
    let r := async_process_message s p
    match r.2.err with
    | some _ => r
    | none =>
      let r2 := asyncProcessParts r.1 ps
      (r2.1, Eff.append r.2 r2.2)

/-- One iteration of the async `AsyncWS._run` read loop. -/
def asyncRunStep (s : WSState) (t : TransportMsg) : WSState × Eff :=
  match t with
  | TransportMsg.heartbeat => s.send Sent.heartbeat
  | TransportMsg.parts ps => asyncProcessParts s ps

/-- `AsyncWS._disconnect()`: close and clear the connection, reset the
authorized/connected flags. -/
def async_disconnect (s : WSState) : WSState :=
  { s with conn := false, authorized := false, connected := false }

/-- The async `AsyncWS._run` read loop body: an exception escaping an
iteration is caught by the surrounding `try`, ending the loop; the
remaining (never processed) messages are returned as the third component. -/
def asyncLoop : WSState → List TransportMsg → WSState × Eff × List TransportMsg
  | s, [] => (s, Eff.empty, [])
  | s, t :: ts =>
    let r := asyncRunStep s t
    match r.2.err with
    | some _ => (r.1, r.2, ts)
    | none =>
      let r2 := asyncLoop r.1 ts
      (r2.1, Eff.append r.2 r2.2.1, r2.2.2)

/-- `AsyncWS._run` around the loop: whatever happens, the `finally` block
disconnects. -/
def async_run (s : WSState) (ts : List TransportMsg) :
    WSState × Eff × List TransportMsg :=
  let r := asyncLoop s ts
  (async_disconnect r.1, r.2.1, r.2.2)

theorem send_fst (s : WSState) (m : Sent) : (s.send m).1 = s := by
  unfold WSState.send; split <;> rfl

theorem send_invoked (s : WSState) (m : Sent) : (s.send m).2.invoked = [] := by
  unfold WSState.send; split <;> rfl

theorem request_invoked (s : WSState) (p : ReqPayload) (cb : Cont) :
    (s.request p cb).2.invoked = [] := by
  unfold WSState.request; exact send_invoked _ _

theorem subscribe_invoked (s : WSState) (c : String) :
    (s.subscribe c).2.invoked = [] := by
  unfold WSState.subscribe; split
  · rfl
  · exact request_invoked _ _ _

theorem subscribeAll_invoked : ∀ (cs : List String) (s : WSState),
    (subscribeAll s cs).2.invoked = []
  | [], _ => rfl
  | c :: rest, s => by
    simp only [subscribeAll]
    cases h : (s.subscribe c).2.err with
    | some e => simp [h, subscribe_invoked]
    | none => simp [h, Eff.append, subscribe_invoked, subscribeAll_invoked rest]

theorem runCont_invoked (s : WSState) (cb : Cont) (m : Msg) :
    (runCont s cb m).2.invoked = [] := by
  cases cb with
  | onAuthorized => exact subscribeAll_invoked _ _
  | onSubscribe c =>
    unfold runCont
    cases m.subData <;> rfl
  | external t => rfl

theorem routePush_fst (s : WSState) (m : Msg) : (routePush s m).1 = s := by
  unfold routePush
  cases m.pushChannel <;> cases m.pushData <;> rfl

theorem routePush_invoked (s : WSState) (m : Msg) : (routePush s m).2.invoked = [] := by
  unfold routePush
  cases m.pushChannel <;> cases m.pushData <;> rfl

theorem routePush_err (s : WSState) (m : Msg) : (routePush s m).2.err = none := by
  unfold routePush
  cases m.pushChannel <;> cases m.pushData <;> rfl

theorem resolveOrRoute_unknown (t : WSState) (m : Msg)
    (h : m.id = none ∨ ∃ i, m.id = some i ∧ dictGet t.promises i = none) :
    (resolveOrRoute t m).1 = t ∧ (resolveOrRoute t m).2.invoked = [] ∧
      (resolveOrRoute t m).2.err = none := by
  rcases h with h | ⟨i, hi, hni⟩
  · simp only [resolveOrRoute, h]
    exact ⟨routePush_fst t m, routePush_invoked t m, routePush_err t m⟩
  · simp only [resolveOrRoute, hi, hni]
    exact ⟨routePush_fst t m, routePush_invoked t m, routePush_err t m⟩

theorem resolveOrRoute_invoked_len (t : WSState) (m : Msg) :
    (resolveOrRoute t m).2.invoked.length ≤ 1 := by
  unfold resolveOrRoute
  cases hid : m.id with
  | none => simp [routePush_invoked]
  | some i =>
    cases hcb : dictGet t.promises i with
    | none => simp [hcb, routePush_invoked]
    | some cb =>
      cases herr : (runCont t cb m).2.err <;>
        simp [hcb, herr, runCont_invoked]

/-- Claim C1: `request(p, cb)` stamps `p` with the next correlation id,
records `cb` as pending, and sends the stamped frame; resolving an envelope
carrying the assigned id invokes `cb` exactly once and (when `cb` returns
normally) removes the pending entry; resolving an envelope with an unknown
or absent id invokes nothing, does not throw, and leaves the whole state —
the pending-request map included — unchanged; no resolution ever invokes
more than one continuation. -/
theorem C1_correlator (s : WSState) (p : ReqPayload) (cb : Cont)
    (hconn : s.conn = true) :
    ((s.request p cb).2.sent = [Sent.frame p (s.message_id + 1)] ∧
      (s.request p cb).2.err = none ∧
      (s.request p cb).1.message_id = s.message_id + 1 ∧
      dictGet (s.request p cb).1.promises (s.message_id + 1) = some cb) ∧
    (∀ m : Msg, m.id = some (s.message_id + 1) →
      (resolveOrRoute (s.request p cb).1 m).2.invoked = [cb] ∧
      ((runCont (s.request p cb).1 cb m).2.err = none →
        dictGet (resolveOrRoute (s.request p cb).1 m).1.promises
          (s.message_id + 1) = none)) ∧
    (∀ (t : WSState) (m : Msg),
      m.id = none ∨ (∃ i, m.id = some i ∧ dictGet t.promises i = none) →
      (resolveOrRoute t m).1 = t ∧ (resolveOrRoute t m).2.invoked = [] ∧
        (resolveOrRoute t m).2.err = none) ∧
    (∀ (t : WSState) (m : Msg), (resolveOrRoute t m).2.invoked.length ≤ 1) := by
  have hfst : (s.request p cb).1 =
      { s with message_id := s.message_id + 1
               promises := dictSet s.promises (s.message_id + 1) cb } := by
    unfold WSState.request; exact send_fst _ _
  refine ⟨?_, fun m hm => ?_, resolveOrRoute_unknown, resolveOrRoute_invoked_len⟩
  · unfold WSState.request WSState.send
    simp [hconn, dictGet_set_self]
  · have hlook : dictGet (s.request p cb).1.promises (s.message_id + 1) = some cb := by
      rw [hfst]; exact dictGet_set_self _ _ _
    constructor
    · simp only [resolveOrRoute, hm, hlook]
      cases herr : (runCont (s.request p cb).1 cb m).2.err <;>
        simp [herr, runCont_invoked]
    · intro herr
      simp only [resolveOrRoute, hm, hlook, herr, dictGet_pop_self]

/-- A connected, authorized session used to instantiate the WS theorems. -/
def liveWS : WSState :=
  { conn := true, connected := true, authorized := true, token := true,
    message_id := 0, promises := [], channels := [], subscribed := [],
    handlers := [] }

/-- Witness for C1: on a live session, a request is stamped with id 1 and
resolving id 1 invokes the recorded callback once and clears it, while
resolving an unknown id 99 changes nothing. -/
theorem C1_witness :
    (liveWS.request (ReqPayload.other 0) (Cont.external 7)).2.sent =
      [Sent.frame (ReqPayload.other 0) 1] ∧
    (resolveOrRoute (liveWS.request (ReqPayload.other 0) (Cont.external 7)).1
      { id := some 1 }).2.invoked = [Cont.external 7] ∧
    dictGet (resolveOrRoute (liveWS.request (ReqPayload.other 0) (Cont.external 7)).1
      { id := some 1 }).1.promises 1 = none ∧
    (resolveOrRoute liveWS { id := some 99 }).1 = liveWS := by
  have h := C1_correlator liveWS (ReqPayload.other 0) (Cont.external 7) rfl
  refine ⟨h.1.1, (h.2.1 { id := some 1 } rfl).1,
    (h.2.1 { id := some 1 } rfl).2 rfl,
    (h.2.2.1 liveWS { id := some 99 } (Or.inr ⟨99, rfl, rfl⟩)).1⟩

/-- A fresh, not-yet-connected session (`WS(token=..., channels=[])`). -/
def freshWS : WSState :=
  { conn := false, connected := false, authorized := false, token := true,
    message_id := 0, promises := [], channels := [], subscribed := [],
    handlers := [] }

/-- The channel used in the C2 scenario. -/
def btcCh : String := "orderbook:BTC-USD"

/-- State after the first pre-connect `subscribe(btcCh)`. -/
def c2s1 : WSState := (freshWS.subscribe btcCh).1

/-- State after additionally registering two handlers for `btcCh` before
connecting. -/
def c2s2 : WSState := (c2s1.register_handler btcCh 1).register_handler btcCh 2

/-- Connect + authorize step of the C2 scenario. -/
def c2conn : WSState × Eff := c2s2.ws_connect

/-- Resolution of the authorize response in the C2 scenario. -/
def c2resolved : WSState × Eff := resolveOrRoute c2conn.1 { id := some 1 }

/-- Claim C2, checked on the code: the first pre-connect `subscribe` only
marks the channel desired and sends nothing, but a SECOND pre-connect
`subscribe` of the same channel falls through the deferral guard, records a
dangling promise, and raises `AttributeError` from `None.send` — the claim's
"only marks the channel as desired" is violated. The rest of the claim
holds: with one deferred subscribe and two registered handlers, connect +
authorize issues exactly one subscribe request for the channel. -/
theorem C2_preconnect_subscribe :
    (freshWS.subscribe btcCh).1.channels = [btcCh] ∧
    (freshWS.subscribe btcCh).2 = Eff.empty ∧
    (c2s1.subscribe btcCh).2.err = some PyError.attributeError ∧
    (c2s1.subscribe btcCh).2.sent = [] ∧
    (c2s1.subscribe btcCh).1.promises = [(1, Cont.onSubscribe btcCh)] ∧
    c2conn.2.sent = [Sent.frame ReqPayload.connectReq 1] ∧
    c2resolved.2.sent = [Sent.frame (ReqPayload.subscribeReq btcCh) 2] ∧
    c2resolved.1.subscribed = [] := by
  refine ⟨?_, ?_, ?_, ?_, ?_, ?_, ?_, ?_⟩ <;> decide

/-- Claim C7, checked on the code: in the sync client an undecodable frame
is dropped with no state change and the read loop goes on to later frames
(also within a newline batch), but in the async client `json.loads` is
unguarded, so the same frame ends the read loop — the remaining frames are
never processed — and the `finally` block disconnects the session. -/
theorem C7_invalid_json (s : WSState) (rest : List TransportMsg)
    (ps : List (Except Unit Msg)) :
    process_message s (Except.error ()) = (s, Eff.empty) ∧
    runFrames s (TransportMsg.parts [Except.error ()] :: rest) = runFrames s rest ∧
    processParts s (Except.error () :: ps) = processParts s ps ∧
    async_run s (TransportMsg.parts [Except.error ()] :: rest) =
      ({ s with conn := false, authorized := false, connected := false },
        { err := some PyError.jsonDecodeError }, rest) := by
  refine ⟨rfl, ?_, ?_, rfl⟩
  · show (let r2 := runFrames s rest; (r2.1, Eff.append Eff.empty r2.2)) = runFrames s rest
    cases h : runFrames s rest with
    | mk a b => simp [Eff.append, Eff.empty]
  · show (let r2 := processParts s ps; (r2.1, Eff.append Eff.empty r2.2)) = processParts s ps
    cases h : processParts s ps with
    | mk a b => simp [Eff.append, Eff.empty]

/-- Claim C8: the empty-object heartbeat frame is echoed back immediately
on the connection and nothing else happens — no continuation resolution, no
dispatch work, no state change — in both the sync and the async read loop. -/
theorem C8_heartbeat_echo (s : WSState) (hconn : s.conn = true) :
    runStep s TransportMsg.heartbeat = (s, { sent := [Sent.heartbeat] }) ∧
    asyncRunStep s TransportMsg.heartbeat = (s, { sent := [Sent.heartbeat] }) := by
  constructor <;> simp [runStep, asyncRunStep, WSState.send, hconn]

/-- Witness for C8 on a live session. -/
theorem C8_witness :
    runStep liveWS TransportMsg.heartbeat = (liveWS, { sent := [Sent.heartbeat] }) ∧
    asyncRunStep liveWS TransportMsg.heartbeat = (liveWS, { sent := [Sent.heartbeat] }) :=
  C8_heartbeat_echo liveWS rfl

/-! ## Handler dispatch (`WS._handler_worker`, `AsyncWS._handle_message`)

A handler object is embedded by its registration tag plus a predicate
telling for which payloads its `on_data` / `on_subscribe` raises. An event
is recorded for every invocation that starts (including the raising one). -/

/-- A registered `ChannelHandler`. -/
structure Handler where
  tag : Nat
  failsData : Data → Bool
  failsSub : Data → Bool

/-- Dispatch environment: the optional global callbacks (with their own
failure predicates) and the per-channel handler lists. -/
structure DispatchEnv where
  onMessageFails : Option (String → Data → Bool)
  onSubscribeFails : Option (String → Data → Bool)
  handlers : List (String × List Handler)

/-- One callback/handler invocation observed during dispatch. -/
inductive DEvent where
  | globalMsg (channel : String) (d : Data)
  | globalSub (channel : String) (d : Data)
  | handlerData (tag : Nat) (d : Data)
  | handlerSub (tag : Nat) (d : Data)
  deriving DecidableEq

/-- The sync `for handler in self.handlers[channel]: handler.on_data(data)`
loop: no per-handler guard, so the first raise aborts the loop. -/
def runHandlersData : List Handler → Data → List DEvent × Option PyError
  | [], _ => ([], none)
  | h :: rest, d =>
    if h.failsData d then ([DEvent.handlerData h.tag d], some PyError.handlerError)
    else
      let r := runHandlersData rest d
      (DEvent.handlerData h.tag d :: r.1, r.2)

/-- The matching loop over `handler.on_subscribe(data)`. -/
def runHandlersSub : List Handler → Data → List DEvent × Option PyError
  | [], _ => ([], none)
  | h :: rest, d =>
    if h.failsSub d then ([DEvent.handlerSub h.tag d], some PyError.handlerError)
    else
      let r := runHandlersSub rest d
      (DEvent.handlerSub h.tag d :: r.1, r.2)

/-- Sync `handle_message(channel, data)` (inner function of
`WS._handler_worker`): global `on_message` first — a raise there, or in any
handler, propagates out of this call. -/
def handle_message (env : DispatchEnv) (c : String) (d : Data) :
    List DEvent × Option PyError :=
  let hsRun :=
    match dictGet env.handlers c with
    | none => (([] : List DEvent), (none : Option PyError))
    | some hs => runHandlersData hs d
  match env.onMessageFails with
  | none => hsRun
  | some f =>
    if f c d then ([DEvent.globalMsg c d], some PyError.handlerError)
    else (DEvent.globalMsg c d :: hsRun.1, hsRun.2)

/-- Sync `handle_subscribe(channel, data)`. -/
def handle_subscribe (env : DispatchEnv) (c : String) (d : Data) :
    List DEvent × Option PyError :=
  let hsRun :=
    match dictGet env.handlers c with
    | none => (([] : List DEvent), (none : Option PyError))
    | some hs => runHandlersSub hs d
  match env.onSubscribeFails with
  | none => hsRun
  | some f =>
    if f c d then ([DEvent.globalSub c d], some PyError.handlerError)
    else (DEvent.globalSub c d :: hsRun.1, hsRun.2)

/-- The sync `WS._handler_worker` queue loop: each item is dispatched under
one `try`, so an escaping error is logged and swallowed at the LOOP
boundary and the worker moves on to the next item. -/
def handler_worker (env : DispatchEnv) : List Dispatch → List DEvent
  | [] => []
  | Dispatch.message c d :: rest =>
    (handle_message env c d).1 ++ handler_worker env rest
  | Dispatch.subscribeAck c d :: rest =>
    (handle_subscribe env c d).1 ++ handler_worker env rest

/-- `AsyncWS._handle_message`: the global callback and EVERY handler run in
their own `try`, so all registered handlers are invoked regardless of
earlier raises and no error escapes. -/
def async_handle_message (env : DispatchEnv) (c : String) (d : Data) : List DEvent :=
  let g :=
    match env.onMessageFails with
    | none => ([] : List DEvent)
    | some _ => [DEvent.globalMsg c d]
  let hs :=
    match dictGet env.handlers c with
    | none => ([] : List DEvent)
    | some l => l.map fun h => DEvent.handlerData h.tag d
  g ++ hs

/-- `AsyncWS._handle_subscribe`. -/
def async_handle_subscribe (env : DispatchEnv) (c : String) (d : Data) : List DEvent :=
  let g :=
    match env.onSubscribeFails with
    | none => ([] : List DEvent)
    | some _ => [DEvent.globalSub c d]
  let hs :=
    match dictGet env.handlers c with
    | none => ([] : List DEvent)
    | some l => l.map fun h => DEvent.handlerSub h.tag d
  g ++ hs

/-- A handler whose `on_data`/`on_subscribe` always raise. -/
def failingHandler : Handler :=
  { tag := 1, failsData := fun _ => true, failsSub := fun _ => true }

/-- A handler that never raises, registered after `failingHandler`. -/
def okHandler : Handler :=
  { tag := 2, failsData := fun _ => false, failsSub := fun _ => false }

/-- Environment with the two handlers registered on one channel. -/
def isoEnv : DispatchEnv :=
  { onMessageFails := none, onSubscribeFails := none,
    handlers := [("orderbook:BTC-USD", [failingHandler, okHandler])] }

/-- Claim C3, checked on the code: in the sync worker a raising first
handler makes the dispatch of that update abort, so the second handler
never receives it (only the worker LOOP survives, as the second queue item
shows) — while the async dispatcher isolates per handler and the second
handler does receive the same update. -/
theorem C3_dispatch_isolation :
    handle_message isoEnv "orderbook:BTC-USD" 0 =
      ([DEvent.handlerData 1 0], some PyError.handlerError) ∧
    DEvent.handlerData 2 0 ∉ (handle_message isoEnv "orderbook:BTC-USD" 0).1 ∧
    handler_worker isoEnv
        [Dispatch.message "orderbook:BTC-USD" 0, Dispatch.message "orderbook:BTC-USD" 1] =
      [DEvent.handlerData 1 0, DEvent.handlerData 1 1] ∧
    async_handle_message isoEnv "orderbook:BTC-USD" 0 =
      [DEvent.handlerData 1 0, DEvent.handlerData 2 0] := by
  refine ⟨rfl, by decide, rfl, rfl⟩

end RabbitX
